import Mathlib

/-
  Verification of the folly logging pipeline fragment:
  StandardLogHandler (src/folly/experimental/logging/StandardLogHandler.h)
  and the FileHandlerFactory configuration surface exercised by
  src/folly/experimental/logging/test/FileHandlerFactoryTest.cpp.

  Components whose implementation files are not part of the sources here
  (LogLevel.h, StandardLogHandler.cpp, FileHandlerFactory.cpp,
  AsyncFileWriter, GlogStyleFormatter) are modelled from the spec; each
  such definition carries a doc comment saying so.
-/

namespace Folly

/-- Modelled from the spec: LogLevel.h is not among the sources.  The spec
describes a totally ordered level enum compared numerically for gating, with
NONE the minimum sentinel meaning accept everything.  The illustrative order
in section 3 of the spec contradicts the normative level-gate property in
section 8 (a WARN gate accepts WARN and ERROR records and rejects DEBUG and
INFO records), so we follow the normative behaviour:
NONE < DBG < INFO < WARN < ERR. -/
inductive LogLevel where
  | NONE
  | DBG
  | INFO
  | WARN
  | ERR
deriving DecidableEq, Repr, Fintype

/-- Numeric value used for the level comparison. -/
def LogLevel.toNat : LogLevel → Nat
  | .NONE => 0
  | .DBG => 1
  | .INFO => 2
  | .WARN => 3
  | .ERR => 4

instance : LT LogLevel := ⟨fun a b => a.toNat < b.toNat⟩

instance : LE LogLevel := ⟨fun a b => a.toNat ≤ b.toNat⟩

instance (a b : LogLevel) : Decidable (a < b) :=
  inferInstanceAs (Decidable (a.toNat < b.toNat))

instance (a b : LogLevel) : Decidable (a ≤ b) :=
  inferInstanceAs (Decidable (a.toNat ≤ b.toNat))

theorem LogLevel.lt_def (a b : LogLevel) : (a < b) = (a.toNat < b.toNat) := rfl

theorem LogLevel.le_def (a b : LogLevel) : (a ≤ b) = (a.toNat ≤ b.toNat) := rfl

theorem LogLevel.not_lt {a b : LogLevel} : ¬ (a < b) ↔ b ≤ a := by
  rw [lt_def, le_def]
  exact Nat.not_lt

/-- Modelled from the spec, section 3: a LogRecord is an immutable value
holding a level, a category name, a message and a timestamp. -/
structure LogMessage where
  level : LogLevel
  categoryName : String
  message : String
  timestamp : Nat
deriving DecidableEq, Repr

/-- The formatter variants.  Only the default glog style exists in the
configuration surface under test. -/
inductive LogFormatter where
  | glogStyle
deriving DecidableEq, Repr

/-- Marker character of a level in the serialized form. -/
def levelMarker : LogLevel → String
  | .NONE => "N"
  | .DBG => "D"
  | .INFO => "I"
  | .WARN => "W"
  | .ERR => "E"

/-- Modelled from the spec: GlogStyleFormatter is not among the sources.
The spec only requires the Formatter to be a pure function from record to
byte sequence; the concrete layout is a glog-like line. -/
def formatMessage (f : LogFormatter) (m : LogMessage) : String :=
  match f with
  | .glogStyle =>
      levelMarker m.level ++ toString m.timestamp ++ " " ++
        m.categoryName ++ "] " ++ m.message ++ "\n"

/-- Destination handle: a file opened from a path, or one of the two
standard streams. -/
inductive File where
  | fromPath (path : String)
  | stdoutFile
  | stderrFile
deriving DecidableEq, Repr

/-- The two Writer variants the factory can build, with the configuration
data each carries: AsyncFileWriter has a maximum buffer size in bytes. -/
inductive LogWriter where
  | async (file : File) (maxBufferSize : Nat)
  | immediate (file : File)
deriving DecidableEq, Repr

/-- Modelled from the spec: AsyncFileWriter.h is not among the sources; the
spec fixes the default capacity by policy at 1 MiB. -/
def kDefaultMaxBufferSize : Nat := 1024 * 1024

/-- StandardLogHandler: one mutable gate level plus the const formatter and
writer members (StandardLogHandler.h lines 86 to 96). -/
structure StandardLogHandler where
  level : LogLevel
  formatter : LogFormatter
  writer : LogWriter
deriving DecidableEq, Repr

/-- The constructor: level defaults to LogLevel::NONE
(StandardLogHandler.h line 87). -/
def StandardLogHandler.new (f : LogFormatter) (w : LogWriter) :
    StandardLogHandler :=
  { level := LogLevel.NONE, formatter := f, writer := w }

/-- getLevel performs an acquire load of the level field. -/
def StandardLogHandler.getLevel (h : StandardLogHandler) : LogLevel :=
  h.level

/-- setLevel performs a release store of the level field. -/
def StandardLogHandler.setLevel (h : StandardLogHandler) (l : LogLevel) :
    StandardLogHandler :=
  { h with level := l }

def StandardLogHandler.getFormatter (h : StandardLogHandler) : LogFormatter :=
  h.formatter

def StandardLogHandler.getWriter (h : StandardLogHandler) : LogWriter :=
  h.writer

/-- Observable calls a single handleMessage invocation makes on its
collaborators. -/
inductive HandlerEvent where
  | formatterCalled (bytes : String)
  | writerCalled (bytes : String)
deriving DecidableEq, Repr

/-- Modelled from the spec: the body of StandardLogHandler::handleMessage is
in StandardLogHandler.cpp, which is not among the sources.  The spec says:
read the gate level; if the record level is strictly below it return with no
further work; otherwise serialize with the Formatter and hand the bytes to
Writer::write.  The result lists the collaborator calls made, in order. -/
def StandardLogHandler.handleMessage (h : StandardLogHandler)
    (m : LogMessage) : List HandlerEvent :=
  if m.level < h.getLevel then
    []
  else
    [HandlerEvent.formatterCalled (formatMessage h.formatter m),
     HandlerEvent.writerCalled (formatMessage h.formatter m)]

/-- Modelled from the spec: runtime state of a Writer, for flush semantics.
The buffer holds accepted but not yet drained entries; delivered holds the
byte strings already issued to the destination, in order. -/
structure WriterState where
  buffer : List String
  bufferedBytes : Nat
  delivered : List String
deriving DecidableEq, Repr

/-- Modelled from the spec: write appends the bytes to the queue. -/
def WriterState.writeMessage (w : WriterState) (bytes : String) :
    WriterState :=
  { w with
      buffer := w.buffer ++ [bytes],
      bufferedBytes := w.bufferedBytes + bytes.length }

/-- Modelled from the spec: flush drains everything enqueued at or before
the barrier to the destination and returns only after the drain. -/
def WriterState.flush (w : WriterState) : WriterState :=
  { buffer := [], bufferedBytes := 0, delivered := w.delivered ++ w.buffer }

/-- A handler together with the runtime state of its writer. -/
structure HandlerState where
  handler : StandardLogHandler
  writerState : WriterState
deriving DecidableEq, Repr

/-- The operations a client can perform on a live handler. -/
inductive HandlerOp where
  | setLevel (l : LogLevel)
  | handleMessage (m : LogMessage)
  | flush
deriving DecidableEq, Repr

/-- Effect of one collaborator call on the writer state. -/
def applyEvent (w : WriterState) : HandlerEvent → WriterState
  | .formatterCalled _ => w
  | .writerCalled bytes => w.writeMessage bytes

/-- One operation on the handler system: setLevel stores the new gate,
handleMessage applies its collaborator calls to the writer, and flush
forwards to the flush of the Writer. -/
def HandlerState.step (s : HandlerState) : HandlerOp → HandlerState
  | .setLevel l => { s with handler := s.handler.setLevel l }
  | .handleMessage m =>
      { s with
          writerState :=
            (s.handler.handleMessage m).foldl applyEvent s.writerState }
  | .flush => { s with writerState := s.writerState.flush }

/-- A sequence of operations, applied in order. -/
def HandlerState.run (s : HandlerState) (ops : List HandlerOp) :
    HandlerState :=
  ops.foldl HandlerState.step s

/- ---------------------------------------------------------------------
   FileHandlerFactory::createHandler, modelled from the spec section 4.4.
   --------------------------------------------------------------------- -/

/-- The recognized configuration keys. -/
def recognizedKeys : List String := ["path", "stream", "async", "max_buffer_size"]

/-- Look up a key in the option mapping. -/
def lookupOpt (options : List (String × String)) (k : String) :
    Option String :=
  (options.find? (fun kv => kv.1 == k)).map Prod.snd

/-- The truthy strings accepted for the async option. -/
def truthyStrings : List String := ["1", "y", "yes", "t", "true", "on"]

/-- The falsy strings accepted for the async option. -/
def falsyStrings : List String := ["0", "n", "no", "f", "false", "off"]

/-- Parse a boolean option value; none when the string is neither truthy
nor falsy. -/
def parseBoolStr (s : String) : Option Bool :=
  if truthyStrings.contains s then some true
  else if falsyStrings.contains s then some false
  else none

/-- Modelled from the spec: any key not in the recognized set is an error
reported as unknown parameter. -/
def checkUnknown (options : List (String × String)) : Except String Unit :=
  match options.find? (fun kv => decide (kv.1 ∉ recognizedKeys)) with
  | some kv => Except.error ("unknown parameter " ++ kv.1)
  | none => Except.ok ()

/-- Modelled from the spec: exactly one of path or stream must be present,
and a stream must be stdout or stderr. -/
def resolveDestination (options : List (String × String)) :
    Except String File :=
  match lookupOpt options "path", lookupOpt options "stream" with
  | some _, some _ => Except.error "cannot specify both path and stream"
  | none, none => Except.error "must specify either path or stream"
  | some p, none => Except.ok (File.fromPath p)
  | none, some s =>
      if s = "stdout" then Except.ok File.stdoutFile
      else if s = "stderr" then Except.ok File.stderrFile
      else Except.error ("unknown stream type " ++ s)

/-- Modelled from the spec: async accepts the truthy and falsy strings,
defaults to true when absent, and any other value is an error. -/
def resolveAsync (options : List (String × String)) : Except String Bool :=
  match lookupOpt options "async" with
  | none => Except.ok true
  | some v =>
      match parseBoolStr v with
      | some b => Except.ok b
      | none => Except.error ("invalid value for async option " ++ v)

/-- Decimal digit parse over a character list: none as soon as a character
is not a digit. -/
def parseNatAux : List Char → Nat → Option Nat
  | [], acc => some acc
  | c :: cs, acc =>
      if c.isDigit then parseNatAux cs (acc * 10 + (c.toNat - 48))
      else none

/-- Parse a non-negative decimal integer; none for the empty string or any
non-digit character (so a leading minus sign is rejected). -/
def parseNatStr (s : String) : Option Nat :=
  match s.data with
  | [] => none
  | cs => parseNatAux cs 0

/-- Modelled from the spec: max_buffer_size must be a positive integer and
is only valid when async delivery is selected. -/
def resolveMaxBufferSize (options : List (String × String))
    (isAsync : Bool) : Except String (Option Nat) :=
  match lookupOpt options "max_buffer_size" with
  | none => Except.ok none
  | some v =>
      if !isAsync then
        Except.error "the max_buffer_size option is only valid for async file handlers"
      else
        match parseNatStr v with
        | none => Except.error ("invalid max_buffer_size value " ++ v)
        | some 0 => Except.error ("invalid max_buffer_size value " ++ v)
        | some n => Except.ok (some n)

/-- Modelled from the spec: FileHandlerFactory.cpp is not among the sources
(only its test is).  createHandler validates the option mapping, resolves
the destination handle, builds the default glog style formatter and either
an AsyncFileWriter with the resolved capacity or an ImmediateFileWriter,
and wraps them in a StandardLogHandler whose gate level is NONE. -/
def createHandler (options : List (String × String)) :
    Except String StandardLogHandler :=
  match checkUnknown options with
  | Except.error e => Except.error e
  | Except.ok _ =>
      match resolveDestination options with
      | Except.error e => Except.error e
      | Except.ok file =>
          match resolveAsync options with
          | Except.error e => Except.error e
          | Except.ok isAsync =>
              match resolveMaxBufferSize options isAsync with
              | Except.error e => Except.error e
              | Except.ok mbs =>
                  Except.ok
                    { level := LogLevel.NONE,
                      formatter := LogFormatter.glogStyle,
                      writer :=
                        if isAsync then
                          LogWriter.async file (mbs.getD kDefaultMaxBufferSize)
                        else
                          LogWriter.immediate file }

/-- Success discriminator for factory results. -/
def exceptIsOk : Except String StandardLogHandler → Bool
  | .ok _ => true
  | .error _ => false

/- ---------------------------------------------------------------------
   Pipeline lemmas shared by the factory theorems.
   --------------------------------------------------------------------- -/

theorem createHandler_err_unknown (opts : List (String × String)) (e : String)
    (h1 : checkUnknown opts = Except.error e) :
    createHandler opts = Except.error e := by
  unfold createHandler
  rw [h1]

theorem createHandler_err_dest (opts : List (String × String)) (e : String)
    (h1 : checkUnknown opts = Except.ok ())
    (h2 : resolveDestination opts = Except.error e) :
    createHandler opts = Except.error e := by
  unfold createHandler
  simp only [h1, h2]

theorem createHandler_err_async (opts : List (String × String)) (e : String)
    (fl : File) (h1 : checkUnknown opts = Except.ok ())
    (h2 : resolveDestination opts = Except.ok fl)
    (h3 : resolveAsync opts = Except.error e) :
    createHandler opts = Except.error e := by
  unfold createHandler
  simp only [h1, h2, h3]

theorem createHandler_err_mbs (opts : List (String × String)) (e : String)
    (fl : File) (b : Bool) (h1 : checkUnknown opts = Except.ok ())
    (h2 : resolveDestination opts = Except.ok fl)
    (h3 : resolveAsync opts = Except.ok b)
    (h4 : resolveMaxBufferSize opts b = Except.error e) :
    createHandler opts = Except.error e := by
  unfold createHandler
  simp only [h1, h2, h3, h4]

theorem createHandler_eq_of_stages (opts : List (String × String)) (fl : File)
    (b : Bool) (mbs : Option Nat) (h1 : checkUnknown opts = Except.ok ())
    (h2 : resolveDestination opts = Except.ok fl)
    (h3 : resolveAsync opts = Except.ok b)
    (h4 : resolveMaxBufferSize opts b = Except.ok mbs) :
    createHandler opts =
      Except.ok
        { level := LogLevel.NONE,
          formatter := LogFormatter.glogStyle,
          writer :=
            if b then LogWriter.async fl (mbs.getD kDefaultMaxBufferSize)
            else LogWriter.immediate fl } := by
  unfold createHandler
  simp only [h1, h2, h3, h4]

theorem createHandler_ok_inv (opts : List (String × String))
    (h : StandardLogHandler) (hok : createHandler opts = Except.ok h) :
    ∃ fl b mbs, checkUnknown opts = Except.ok () ∧
      resolveDestination opts = Except.ok fl ∧
      resolveAsync opts = Except.ok b ∧
      resolveMaxBufferSize opts b = Except.ok mbs ∧
      h = { level := LogLevel.NONE,
            formatter := LogFormatter.glogStyle,
            writer :=
              if b then LogWriter.async fl (mbs.getD kDefaultMaxBufferSize)
              else LogWriter.immediate fl } := by
  cases h1 : checkUnknown opts with
  | error e =>
      rw [createHandler_err_unknown opts e h1] at hok
      exact Except.noConfusion hok
  | ok u =>
      cases u
      cases h2 : resolveDestination opts with
      | error e =>
          rw [createHandler_err_dest opts e h1 h2] at hok
          exact Except.noConfusion hok
      | ok fl =>
          cases h3 : resolveAsync opts with
          | error e =>
              rw [createHandler_err_async opts e fl h1 h2 h3] at hok
              exact Except.noConfusion hok
          | ok b =>
              cases h4 : resolveMaxBufferSize opts b with
              | error e =>
                  rw [createHandler_err_mbs opts e fl b h1 h2 h3 h4] at hok
                  exact Except.noConfusion hok
              | ok mbs =>
                  refine ⟨fl, b, mbs, rfl, rfl, rfl, h4, ?_⟩
                  have heq :=
                    (createHandler_eq_of_stages opts fl b mbs h1 h2 h3 h4).symm.trans hok
                  exact (Except.ok.inj heq).symm

/- ---------------------------------------------------------------------
   Handler lemmas shared by the frame and level theorems.
   --------------------------------------------------------------------- -/

theorem run_preserves_formatter_writer (ops : List HandlerOp)
    (s : HandlerState) :
    (s.run ops).handler.formatter = s.handler.formatter ∧
    (s.run ops).handler.writer = s.handler.writer := by
  induction ops generalizing s with
  | nil => exact ⟨rfl, rfl⟩
  | cons op rest ih =>
      have hstep : (s.step op).handler.formatter = s.handler.formatter ∧
          (s.step op).handler.writer = s.handler.writer := by
        cases op <;>
          simp [HandlerState.step, StandardLogHandler.setLevel]
      have hrest := ih (s.step op)
      exact ⟨hrest.1.trans hstep.1, hrest.2.trans hstep.2⟩

theorem run_preserves_level_of_no_setLevel (ops : List HandlerOp)
    (s : HandlerState)
    (hops : ∀ op ∈ ops, ∀ l, op ≠ HandlerOp.setLevel l) :
    (s.run ops).handler.level = s.handler.level := by
  induction ops generalizing s with
  | nil => rfl
  | cons op rest ih =>
      have hop := hops op (List.mem_cons_self op rest)
      have hrest : ∀ op2 ∈ rest, ∀ l, op2 ≠ HandlerOp.setLevel l :=
        fun op2 h2 => hops op2 (List.mem_cons_of_mem op h2)
      have hstep : (s.step op).handler.level = s.handler.level := by
        cases op with
        | setLevel l => exact absurd rfl (hop l)
        | handleMessage m => rfl
        | flush => rfl
      exact (ih (s.step op) hrest).trans hstep

/- ---------------------------------------------------------------------
   Claim theorems.
   --------------------------------------------------------------------- -/

/-- C1: handleMessage invokes neither the Formatter nor the Writer when the
record level is strictly below the gate level read at entry; at or above
the gate it serializes the record with the Formatter and then calls
Writer::write on the resulting bytes. -/
theorem handleMessage_level_gate (h : StandardLogHandler) (m : LogMessage) :
    (m.level < h.getLevel → h.handleMessage m = []) ∧
    (h.getLevel ≤ m.level →
      h.handleMessage m =
        [HandlerEvent.formatterCalled (formatMessage h.getFormatter m),
         HandlerEvent.writerCalled (formatMessage h.getFormatter m)]) := by
  constructor
  · intro hlt
    simp [StandardLogHandler.handleMessage, hlt]
  · intro hle
    have hnlt : ¬ (m.level < h.getLevel) := LogLevel.not_lt.mpr hle
    simp [StandardLogHandler.handleMessage, StandardLogHandler.getFormatter,
      hnlt]

/-- Witness for C1 at the gate level WARN of the spec example: a DEBUG
record produces no collaborator call, an ERROR record is formatted and
written. -/
theorem handleMessage_level_gate_witness :
    (LogLevel.DBG < LogLevel.WARN ∧
      ((StandardLogHandler.new LogFormatter.glogStyle
          (LogWriter.immediate File.stderrFile)).setLevel
            LogLevel.WARN).handleMessage
        { level := LogLevel.DBG, categoryName := "cat", message := "m",
          timestamp := 0 } = []) ∧
    (LogLevel.WARN ≤ LogLevel.ERR ∧
      ((StandardLogHandler.new LogFormatter.glogStyle
          (LogWriter.immediate File.stderrFile)).setLevel
            LogLevel.WARN).handleMessage
        { level := LogLevel.ERR, categoryName := "cat", message := "m",
          timestamp := 0 } =
        [HandlerEvent.formatterCalled (formatMessage LogFormatter.glogStyle
            { level := LogLevel.ERR, categoryName := "cat", message := "m",
              timestamp := 0 }),
         HandlerEvent.writerCalled (formatMessage LogFormatter.glogStyle
            { level := LogLevel.ERR, categoryName := "cat", message := "m",
              timestamp := 0 })]) :=
  ⟨⟨by decide, (handleMessage_level_gate _ _).1 (by decide)⟩,
   ⟨by decide, (handleMessage_level_gate _ _).2 (by decide)⟩⟩

/-- C7: a freshly constructed handler has gate level NONE, NONE is the
minimum of the level order, and handleMessage on a fresh handler accepts
every record: its level is never below the gate, and the record is
formatted and written. -/
theorem new_handler_accepts_all (f : LogFormatter) (w : LogWriter)
    (m : LogMessage) (l : LogLevel) :
    (StandardLogHandler.new f w).getLevel = LogLevel.NONE ∧
    LogLevel.NONE ≤ l ∧
    ¬ (m.level < (StandardLogHandler.new f w).getLevel) ∧
    (StandardLogHandler.new f w).handleMessage m =
      [HandlerEvent.formatterCalled (formatMessage f m),
       HandlerEvent.writerCalled (formatMessage f m)] := by
  have h2 : LogLevel.NONE ≤ l := by
    rw [LogLevel.le_def]
    exact Nat.zero_le _
  have h3 : ¬ (m.level < (StandardLogHandler.new f w).getLevel) := by
    show ¬ (m.level < LogLevel.NONE)
    rw [LogLevel.lt_def]
    exact Nat.not_lt_zero _
  have h4 : (StandardLogHandler.new f w).handleMessage m =
      [HandlerEvent.formatterCalled (formatMessage f m),
       HandlerEvent.writerCalled (formatMessage f m)] := by
    unfold StandardLogHandler.handleMessage
    rw [if_neg h3]
  exact ⟨rfl, h2, h3, h4⟩

/-- C2 counterexample: an option mapping with a valid path key, no stream
key and no async key on which createHandler succeeds but the writer does
not carry the default maximum buffer size. -/
theorem createHandler_pathOnly_cex :
    lookupOpt [("path", "log.txt"), ("max_buffer_size", "4096000")]
      "path" = some "log.txt" ∧
    lookupOpt [("path", "log.txt"), ("max_buffer_size", "4096000")]
      "stream" = none ∧
    lookupOpt [("path", "log.txt"), ("max_buffer_size", "4096000")]
      "async" = none ∧
    createHandler [("path", "log.txt"), ("max_buffer_size", "4096000")] =
      Except.ok
        { level := LogLevel.NONE, formatter := LogFormatter.glogStyle,
          writer := LogWriter.async (File.fromPath "log.txt") 4096000 } ∧
    4096000 ≠ kDefaultMaxBufferSize :=
  ⟨rfl, rfl, rfl, rfl, by decide⟩

/-- C2 (amended): for every option mapping whose only key is path,
createHandler succeeds and returns a handler whose writer is the
AsyncFileWriter with the default maximum buffer size, whose formatter is
the default glog style, and whose destination handle refers to the file
named by path. -/
theorem createHandler_pathOnly (p : String) :
    createHandler [("path", p)] =
      Except.ok
        { level := LogLevel.NONE, formatter := LogFormatter.glogStyle,
          writer := LogWriter.async (File.fromPath p)
            kDefaultMaxBufferSize } := rfl

/-- C8: the formatter and writer of a handler are fixed at construction:
after every sequence of setLevel, handleMessage and flush operations,
getFormatter and getWriter return exactly the values passed to the
constructor. -/
theorem handler_formatter_writer_frame (f : LogFormatter) (w : LogWriter)
    (ws : WriterState) (ops : List HandlerOp) :
    ((HandlerState.mk (StandardLogHandler.new f w) ws).run
        ops).handler.getFormatter = f ∧
    ((HandlerState.mk (StandardLogHandler.new f w) ws).run
        ops).handler.getWriter = w := by
  have h := run_preserves_formatter_writer ops
    (HandlerState.mk (StandardLogHandler.new f w) ws)
  exact ⟨h.1, h.2⟩

/-- C9: flush is idempotent in the absence of new writes: flushing twice
equals flushing once, and in particular the second flush delivers no data
beyond what the first already delivered to the destination. -/
theorem handler_flush_idempotent (s : HandlerState) :
    (s.step HandlerOp.flush).step HandlerOp.flush = s.step HandlerOp.flush ∧
    ((s.step HandlerOp.flush).step
        HandlerOp.flush).writerState.delivered =
      (s.step HandlerOp.flush).writerState.delivered := by
  have h1 : (s.step HandlerOp.flush).step HandlerOp.flush =
      s.step HandlerOp.flush := by
    simp [HandlerState.step, WriterState.flush]
  exact ⟨h1, by rw [h1]⟩

/-- C10: after setLevel l, getLevel returns l, independent of any
handleMessage or flush operations performed in between. -/
theorem setLevel_getLevel_roundtrip (s : HandlerState) (l : LogLevel)
    (ops : List HandlerOp)
    (hops : ∀ op ∈ ops, ∀ m, op ≠ HandlerOp.setLevel m) :
    ((s.step (HandlerOp.setLevel l)).run ops).handler.getLevel = l := by
  have h := run_preserves_level_of_no_setLevel ops
    (s.step (HandlerOp.setLevel l)) hops
  show ((s.step (HandlerOp.setLevel l)).run ops).handler.level = l
  rw [h]
  rfl

/-- Witness for C10: store WARN, then handle an ERROR record and flush;
getLevel still returns WARN. -/
theorem setLevel_getLevel_roundtrip_witness :
    (((HandlerState.mk
        (StandardLogHandler.new LogFormatter.glogStyle
          (LogWriter.immediate File.stderrFile))
        (WriterState.mk [] 0 [])).step
          (HandlerOp.setLevel LogLevel.WARN)).run
      [HandlerOp.handleMessage
          { level := LogLevel.ERR, categoryName := "cat", message := "m",
            timestamp := 0 },
        HandlerOp.flush]).handler.getLevel = LogLevel.WARN :=
  setLevel_getLevel_roundtrip _ _ _ (by decide)

theorem resolveAsync_some (opts : List (String × String)) (v : String)
    (hv : lookupOpt opts "async" = some v) :
    resolveAsync opts =
      (match parseBoolStr v with
       | some b => Except.ok b
       | none => Except.error ("invalid value for async option " ++ v)) := by
  unfold resolveAsync
  rw [hv]

theorem resolveMaxBufferSize_some (opts : List (String × String))
    (v : String) (b : Bool)
    (hv : lookupOpt opts "max_buffer_size" = some v) :
    resolveMaxBufferSize opts b =
      (if !b then
        Except.error "the max_buffer_size option is only valid for async file handlers"
       else
        match parseNatStr v with
        | none => Except.error ("invalid max_buffer_size value " ++ v)
        | some 0 => Except.error ("invalid max_buffer_size value " ++ v)
        | some n => Except.ok (some n)) := by
  unfold resolveMaxBufferSize
  rw [hv]

/-- C3: createHandler fails whenever the option mapping does not contain
exactly one destination: path and stream both present, neither present, or
a stream value outside stdout and stderr; no handler is returned. -/
theorem createHandler_destination_errors (opts : List (String × String))
    (hbad : ((lookupOpt opts "path").isSome ∧
              (lookupOpt opts "stream").isSome) ∨
            (lookupOpt opts "path" = none ∧
              lookupOpt opts "stream" = none) ∨
            (∃ s, lookupOpt opts "stream" = some s ∧
              s ≠ "stdout" ∧ s ≠ "stderr")) :
    exceptIsOk (createHandler opts) = false := by
  have hdest : ∀ fl, resolveDestination opts ≠ Except.ok fl := by
    intro fl hf
    unfold resolveDestination at hf
    rcases hbad with ⟨hp, hs⟩ | ⟨hp, hs⟩ | ⟨s, hs, hs1, hs2⟩
    · rcases Option.isSome_iff_exists.mp hp with ⟨p, hp2⟩
      rcases Option.isSome_iff_exists.mp hs with ⟨t, ht2⟩
      rw [hp2, ht2] at hf
      exact Except.noConfusion hf
    · rw [hp, hs] at hf
      exact Except.noConfusion hf
    · cases hp : lookupOpt opts "path" with
      | some p =>
          rw [hp, hs] at hf
          exact Except.noConfusion hf
      | none =>
          rw [hp, hs] at hf
          simp [hs1, hs2] at hf
  cases hch : createHandler opts with
  | error e => rfl
  | ok h =>
      obtain ⟨fl, b, mbs, h1, h2, h3, h4, h5⟩ := createHandler_ok_inv opts h hch
      exact absurd h2 (hdest fl)

/-- Witness for C3: path and stream both present is rejected. -/
theorem createHandler_destination_errors_witness :
    exceptIsOk
      (createHandler [("path", "log.txt"), ("stream", "stderr")]) = false :=
  createHandler_destination_errors _ (Or.inl (by decide))

/-- C4: max_buffer_size is validated at construction time: the values 0,
-5 and hello always fail; a max_buffer_size together with a falsy async
value fails; and 4096000 with a valid path destination and async delivery
succeeds with reported capacity 4096000. -/
theorem createHandler_max_buffer_size_checks (opts : List (String × String)) :
    (∀ v, lookupOpt opts "max_buffer_size" = some v →
        (v = "0" ∨ v = "-5" ∨ v = "hello") →
        exceptIsOk (createHandler opts) = false) ∧
    (∀ v a, lookupOpt opts "max_buffer_size" = some v →
        lookupOpt opts "async" = some a → parseBoolStr a = some false →
        exceptIsOk (createHandler opts) = false) ∧
    (∀ p, createHandler [("path", p), ("max_buffer_size", "4096000")] =
        Except.ok
          { level := LogLevel.NONE, formatter := LogFormatter.glogStyle,
            writer := LogWriter.async (File.fromPath p) 4096000 }) := by
  refine ⟨?_, ?_, fun p => rfl⟩
  · intro v hv hvval
    cases hch : createHandler opts with
    | error e => rfl
    | ok h =>
        obtain ⟨fl, b, mbs, h1, h2, h3, h4, h5⟩ :=
          createHandler_ok_inv opts h hch
        rw [resolveMaxBufferSize_some opts v b hv] at h4
        cases b with
        | false => simp at h4
        | true =>
            rcases hvval with rfl | rfl | rfl
            · rw [show parseNatStr "0" = some 0 from rfl] at h4
              simp at h4
            · rw [show parseNatStr "-5" = none from rfl] at h4
              simp at h4
            · rw [show parseNatStr "hello" = none from rfl] at h4
              simp at h4
  · intro v a hv ha hfalse
    cases hch : createHandler opts with
    | error e => rfl
    | ok h =>
        obtain ⟨fl, b, mbs, h1, h2, h3, h4, h5⟩ :=
          createHandler_ok_inv opts h hch
        cases b with
        | false =>
            rw [resolveMaxBufferSize_some opts v false hv] at h4
            simp at h4
        | true =>
            rw [resolveAsync_some opts a ha, hfalse] at h3
            simp at h3

/-- Witness for C4: hello is rejected, a falsy async with max_buffer_size
is rejected, and 4096000 with a path succeeds at capacity 4096000. -/
theorem createHandler_max_buffer_size_checks_witness :
    exceptIsOk
      (createHandler [("stream", "stderr"), ("max_buffer_size", "hello")]) =
        false ∧
    exceptIsOk
      (createHandler [("stream", "stderr"), ("async", "false"),
        ("max_buffer_size", "1234")]) = false ∧
    createHandler [("path", "log.txt"), ("max_buffer_size", "4096000")] =
      Except.ok
        { level := LogLevel.NONE, formatter := LogFormatter.glogStyle,
          writer := LogWriter.async (File.fromPath "log.txt") 4096000 } :=
  ⟨(createHandler_max_buffer_size_checks _).1 "hello" rfl
      (Or.inr (Or.inr rfl)),
   (createHandler_max_buffer_size_checks _).2.1 "1234" "false" rfl rfl rfl,
   (createHandler_max_buffer_size_checks []).2.2 "log.txt"⟩

/-- C5: the async option accepts exactly the truthy and falsy strings and
defaults to true when absent; any other value makes createHandler fail;
with a falsy async value and otherwise valid options the returned handler
carries the ImmediateFileWriter bound to the requested destination. -/
theorem createHandler_async_values (opts : List (String × String)) :
    (∀ v, lookupOpt opts "async" = some v → parseBoolStr v = none →
        exceptIsOk (createHandler opts) = false) ∧
    (∀ v b, lookupOpt opts "async" = some v → parseBoolStr v = some b →
        resolveAsync opts = Except.ok b) ∧
    (lookupOpt opts "async" = none → resolveAsync opts = Except.ok true) ∧
    (∀ h, createHandler opts = Except.ok h →
        lookupOpt opts "async" = none →
        ∃ fl n, h.getWriter = LogWriter.async fl n) ∧
    (∀ h v fl, createHandler opts = Except.ok h →
        lookupOpt opts "async" = some v → parseBoolStr v = some false →
        resolveDestination opts = Except.ok fl →
        h.getWriter = LogWriter.immediate fl) := by
  have hasync_some : ∀ v b, lookupOpt opts "async" = some v →
      parseBoolStr v = some b → resolveAsync opts = Except.ok b := by
    intro v b hv hb
    rw [resolveAsync_some opts v hv, hb]
  have hasync_none : lookupOpt opts "async" = none →
      resolveAsync opts = Except.ok true := by
    intro hnone
    unfold resolveAsync
    rw [hnone]
  refine ⟨?_, hasync_some, hasync_none, ?_, ?_⟩
  · intro v hv hnone
    cases hch : createHandler opts with
    | error e => rfl
    | ok h =>
        obtain ⟨fl, b, mbs, h1, h2, h3, h4, h5⟩ :=
          createHandler_ok_inv opts h hch
        rw [resolveAsync_some opts v hv, hnone] at h3
        exact Except.noConfusion h3
  · intro h hok hnone
    obtain ⟨fl, b, mbs, h1, h2, h3, h4, h5⟩ := createHandler_ok_inv opts h hok
    have hb : b = true :=
      (Except.ok.inj ((hasync_none hnone).symm.trans h3)).symm
    subst hb
    subst h5
    exact ⟨fl, mbs.getD kDefaultMaxBufferSize, rfl⟩
  · intro h v fl hok hv hfalse hdest
    obtain ⟨fl2, b, mbs, h1, h2, h3, h4, h5⟩ :=
      createHandler_ok_inv opts h hok
    have hb : b = false :=
      (Except.ok.inj ((hasync_some v false hv hfalse).symm.trans h3)).symm
    subst hb
    have hfl : fl = fl2 := Except.ok.inj (hdest.symm.trans h2)
    subst hfl
    subst h5
    rfl

/-- Witness for C5: async foobar is rejected; async no yields the handler
whose writer is the ImmediateFileWriter on stderr. -/
theorem createHandler_async_values_witness :
    exceptIsOk
      (createHandler [("stream", "stderr"), ("async", "foobar")]) = false ∧
    ({ level := LogLevel.NONE, formatter := LogFormatter.glogStyle,
        writer := LogWriter.immediate File.stderrFile } :
          StandardLogHandler).getWriter =
      LogWriter.immediate File.stderrFile :=
  ⟨(createHandler_async_values _).1 "foobar" rfl rfl,
   (createHandler_async_values
      [("stream", "stderr"), ("async", "no")]).2.2.2.2
      { level := LogLevel.NONE, formatter := LogFormatter.glogStyle,
        writer := LogWriter.immediate File.stderrFile }
      "no" File.stderrFile rfl rfl rfl rfl⟩

/-- C6: any key outside the recognized set makes createHandler fail,
reporting unknown parameter followed by the key name, regardless of the
other keys and values. -/
theorem createHandler_unknown_key (opts : List (String × String))
    (kv : String × String) (hmem : kv ∈ opts)
    (hk : kv.1 ∉ recognizedKeys) :
    ∃ k, k ∉ recognizedKeys ∧
      createHandler opts = Except.error ("unknown parameter " ++ k) := by
  have hsome : (opts.find?
      (fun kv2 => decide (kv2.1 ∉ recognizedKeys))).isSome := by
    rw [List.find?_isSome]
    exact ⟨kv, hmem, by simpa using hk⟩
  obtain ⟨kv0, hkv0⟩ := Option.isSome_iff_exists.mp hsome
  have hpred := List.find?_some hkv0
  have hcu : checkUnknown opts =
      Except.error ("unknown parameter " ++ kv0.1) := by
    unfold checkUnknown
    rw [hkv0]
  exact ⟨kv0.1, by simpa using hpred,
    createHandler_err_unknown opts _ hcu⟩

/-- Witness for C6: the key foo is rejected even though stream is valid. -/
theorem createHandler_unknown_key_witness :
    exceptIsOk (createHandler [("stream", "stderr"), ("foo", "bar")]) =
      false := by
  obtain ⟨k, hk, he⟩ := createHandler_unknown_key
    [("stream", "stderr"), ("foo", "bar")] ("foo", "bar")
    (by decide) (by decide)
  rw [he]
  rfl

end Folly
